import Mathlib

/-!
# Verification of the safety-traceability knowledge-graph service

A shallow embedding of the analysis/import core of the service: the property
graph held by the store, the Cypher queries of `app/db/queries.py`, and the
service-layer logic of `app/services/*.py`, with theorems settling the frozen
claims about hazard coverage, component impact, import-batch semantics,
validation, and filtering.

Modelling conventions:
* A graph-store node carries a store-internal identity `key`, its `label`,
  its `id` property and the optional properties the analysis queries read;
  an absent property is `none` (the store's null).
* A Cypher `MATCH` of a fixed-shape pattern is the list of its bindings; an
  `OPTIONAL MATCH` of a whole multi-hop pattern that has no binding leaves
  every pattern variable null, so `collect(DISTINCT x)` over the resulting
  rows is the deduplicated projection of the full-pattern bindings (Cypher
  aggregates drop nulls).
* Relationship multiplicity: the embedding records an edge as a
  (source key, type, target key) triple; every settled claim reads the
  queries only through `DISTINCT` aggregates, which are insensitive to
  parallel duplicate relationships.
* The relationship-type parameter `$rel_type` of `CREATE_RELATIONSHIP` is
  taken to denote the requested type, as the repository's own unit tests
  assume when they assert the created relationships exist.
-/

namespace SafetyGraph

/-- A property-graph node: store-internal identity `key`, node `label`, the
`id` property, and the property fields the embedded queries read. -/
structure Node where
  key : Nat
  label : String
  id : String
  asil : Option String := none
  description : Option String := none
  name : Option String := none
  component_type : Option String := none
deriving DecidableEq, Repr

/-- A directed, typed relationship between two store nodes. -/
structure Edge where
  src : Nat
  typ : String
  dst : Nat
deriving DecidableEq, Repr

/-- The property graph the store holds. -/
structure Graph where
  nodes : List Node
  edges : List Edge
deriving DecidableEq, Repr

/-- Bindings of the one-hop pattern `(n)-[:relType]->(m:lbl)`: the nodes `m`
with label `lbl` that `n` reaches over a `relType` relationship. -/
def Graph.outTo (g : Graph) (n : Node) (relType lbl : String) : List Node :=
  g.nodes.filter fun m =>
    m.label == lbl && g.edges.contains { src := n.key, typ := relType, dst := m.key }

/-- Bindings of the one-hop pattern `(m:lbl)-[:relType]->(n)`: the nodes `m`
with label `lbl` that reach `n` over a `relType` relationship. -/
def Graph.inFrom (g : Graph) (n : Node) (relType lbl : String) : List Node :=
  g.nodes.filter fun m =>
    m.label == lbl && g.edges.contains { src := m.key, typ := relType, dst := n.key }

/-- All bindings `(sg, fsr, tsr, tc)` of the fixed 4-hop coverage chain
`(h)-[:MITIGATED_BY]->(sg:SafetyGoal)-[:REFINED_TO]->(fsr:FunctionalSafetyRequirement)
-[:REFINED_TO]->(tsr:TechnicalSafetyRequirement)-[:VERIFIED_BY]->(tc:TestCase)`. -/
def coverageChainMatches (g : Graph) (h : Node) : List (Node × Node × Node × Node) :=
  (g.outTo h "MITIGATED_BY" "SafetyGoal").flatMap fun sg =>
    (g.outTo sg "REFINED_TO" "FunctionalSafetyRequirement").flatMap fun fsr =>
      (g.outTo fsr "REFINED_TO" "TechnicalSafetyRequirement").flatMap fun tsr =>
        (g.outTo tsr "VERIFIED_BY" "TestCase").map fun tc => (sg, fsr, tsr, tc)

/-- One row of `GET_HAZARD_COVERAGE`. -/
structure HazardCoverageRow where
  hazard : Node
  safety_goals : List Node
  fsrs : List Node
  tsrs : List Node
  test_cases : List Node
  complete_chains : Nat
  coverage_status : String
deriving DecidableEq, Repr

/-- `GET_HAZARD_COVERAGE` (queries.py): matches the hazard by id, OPTIONAL
MATCHes the whole 4-hop chain, groups per hazard, and classifies
`'full'` when `complete_chains > 0`, else `'partial'` when
`size(safety_goals) > 0`, else `'none'`.  The collected lists are the
deduplicated projections of the full-chain bindings because the OPTIONAL
MATCH of the entire pattern binds `sg` (and the rest) to null whenever no
complete chain exists, and `collect(DISTINCT _)` drops nulls. -/
def GET_HAZARD_COVERAGE (g : Graph) (hazard_id : String) : List HazardCoverageRow :=
  (g.nodes.filter fun n => n.label == "Hazard" && n.id == hazard_id).map fun h =>
    let ms := coverageChainMatches g h
    { hazard := h
      safety_goals := (ms.map fun m => m.1).dedup
      fsrs := (ms.map fun m => m.2.1).dedup
      tsrs := (ms.map fun m => m.2.2.1).dedup
      test_cases := (ms.map fun m => m.2.2.2).dedup
      complete_chains := ms.dedup.length
      coverage_status :=
        if ms.dedup.length > 0 then "full"
        else if (ms.map fun m => m.1).dedup.length > 0 then "partial"
        else "none" }

/-- The order the store gives `ORDER BY _ DESC` on a nullable string
property: null sorts above every string (so it comes first under DESC). -/
def optStrLt : Option String → Option String → Prop
  | some a, some b => a < b
  | some _, none => True
  | none, _ => False

instance : DecidableRel optStrLt := fun x y =>
  match x, y with
  | some a, some b => inferInstanceAs (Decidable (a < b))
  | some _, none => inferInstanceAs (Decidable True)
  | none, some _ => inferInstanceAs (Decidable False)
  | none, none => inferInstanceAs (Decidable False)

/-- `ORDER BY h.asil DESC, h.id`: descending on the `asil` string, ties
broken by ascending `id`. -/
def hazardOrderRel (a b : Node) : Prop :=
  optStrLt b.asil a.asil ∨ (a.asil = b.asil ∧ a.id ≤ b.id)

instance : DecidableRel hazardOrderRel := fun a b =>
  inferInstanceAs (Decidable (_ ∨ _))

/-- One row of `GET_ALL_HAZARDS_COVERAGE` (and of the ASIL-filtered inline
variant in `AnalyticsService.get_all_hazards_coverage`).  `test_count` is the
row's internal `count(DISTINCT tc)` aggregate. -/
structure AllHazardsCoverageRow where
  hazard_id : String
  description : Option String
  asil : Option String
  safety_goals : List String
  fsrs : List String
  tsrs : List String
  test_cases : List String
  test_count : Nat
  coverage_status : String
deriving DecidableEq, Repr

/-- The per-hazard row shared by `GET_ALL_HAZARDS_COVERAGE` and the
ASIL-filtered variant: OPTIONAL MATCH of the whole 4-hop chain, ids
collected `DISTINCT`, and classification `'full'` when
`count(DISTINCT tc) > 0`, else `'partial'` when `size(safety_goals) > 0`,
else `'none'`. -/
def allHazardsCoverageRow (g : Graph) (h : Node) : AllHazardsCoverageRow :=
  let ms := coverageChainMatches g h
  { hazard_id := h.id
    description := h.description
    asil := h.asil
    safety_goals := (ms.map fun m => m.1.id).dedup
    fsrs := (ms.map fun m => m.2.1.id).dedup
    tsrs := (ms.map fun m => m.2.2.1.id).dedup
    test_cases := (ms.map fun m => m.2.2.2.id).dedup
    test_count := (ms.map fun m => m.2.2.2).dedup.length
    coverage_status :=
      if (ms.map fun m => m.2.2.2).dedup.length > 0 then "full"
      else if (ms.map fun m => m.1.id).dedup.length > 0 then "partial"
      else "none" }

/-- `GET_ALL_HAZARDS_COVERAGE` (queries.py): every hazard, one row each,
`ORDER BY h.asil DESC, h.id`. -/
def GET_ALL_HAZARDS_COVERAGE (g : Graph) : List AllHazardsCoverageRow :=
  (List.insertionSort hazardOrderRel (g.nodes.filter fun n => n.label == "Hazard")).map
    (allHazardsCoverageRow g)

/-- The inline ASIL-filtered query of
`AnalyticsService.get_all_hazards_coverage`: as `GET_ALL_HAZARDS_COVERAGE`
but restricted by `WHERE h.asil IN $asil_levels` (a null `asil` never passes
an `IN` predicate). -/
def ALL_HAZARDS_COVERAGE_ASIL_FILTERED (g : Graph) (asil_levels : List String) :
    List AllHazardsCoverageRow :=
  (List.insertionSort hazardOrderRel (g.nodes.filter fun n =>
    n.label == "Hazard" &&
      match n.asil with
      | some a => asil_levels.contains a
      | none => false)).map (allHazardsCoverageRow g)

/-- The aggregate summary shape shared by the service summary of
`get_all_hazards_coverage` and by `GET_COVERAGE_STATISTICS`. -/
structure HazardCoverageSummary where
  total_hazards : Nat
  fully_covered : Nat
  partially_covered : Nat
  not_covered : Nat
  coverage_percentage : ℚ
deriving DecidableEq, Repr

/-- `AnalyticsService.get_all_hazards_coverage` (analytics_service.py):
runs the (optionally ASIL-filtered) all-hazards query, counts the items per
`coverage_status`, and computes
`coverage_percentage = fully_covered / total * 100 if total > 0 else 0`. -/
def get_all_hazards_coverage (g : Graph) (asil_filter : Option (List String)) :
    HazardCoverageSummary × List AllHazardsCoverageRow :=
  let items :=
    match asil_filter with
    | some levels => ALL_HAZARDS_COVERAGE_ASIL_FILTERED g levels
    | none => GET_ALL_HAZARDS_COVERAGE g
  let total := items.length
  let fully := items.countP fun i => i.coverage_status == "full"
  let parts := items.countP fun i => i.coverage_status == "partial"
  let nones := items.countP fun i => i.coverage_status == "none"
  ({ total_hazards := total
     fully_covered := fully
     partially_covered := parts
     not_covered := nones
     coverage_percentage := if total > 0 then (fully : ℚ) / (total : ℚ) * 100 else 0 },
   items)

/-- `GET_COVERAGE_STATISTICS` (queries.py): per hazard the
`count(DISTINCT tc)` of the OPTIONAL-MATCHed 4-hop chain, then
`fully_covered = #(test_count > 0)`, `not_covered = #(test_count = 0)`,
`partially_covered = total - fully - not`, and
`coverage_percentage = toFloat(fully) / total * 100` guarded to 0 on an
empty hazard set. -/
def GET_COVERAGE_STATISTICS (g : Graph) : HazardCoverageSummary :=
  let counts := (g.nodes.filter fun n => n.label == "Hazard").map fun h =>
    ((coverageChainMatches g h).map fun m => m.2.2.2).dedup.length
  let total := counts.length
  let fully := counts.countP fun c => c > 0
  let nones := counts.countP fun c => c == 0
  { total_hazards := total
    fully_covered := fully
    partially_covered := total - fully - nones
    not_covered := nones
    coverage_percentage := if total > 0 then (fully : ℚ) / (total : ℚ) * 100 else 0 }

/-- One row of `GET_COMPONENT_IMPACT`. -/
structure ComponentImpactRow where
  component : Node
  hazards : List Node
  safety_goals : List Node
  functions : List Node
  test_cases : List Node
  failure_modes : List Node
  fmea_entries : List Node
  defects : List Node
  impact_score : Nat
deriving DecidableEq, Repr

/-- `GET_COMPONENT_IMPACT` (queries.py): matches the component by id, then
four independent OPTIONAL MATCHes —
`(c)-[:IMPLEMENTS]->(f:Function)-[:CONTRIBUTES_TO]->(sg:SafetyGoal)<-[:MITIGATED_BY]-(h:Hazard)`,
`(c)-[:VERIFIED_BY]->(tc:TestCase)`,
`(c)-[:HAS_FAILURE_MODE]->(fm:FailureMode)-[:ANALYZED_IN]->(fmea:FMEAEntry)`,
`(c)<-[:FOUND_IN]-(d:DefectInstance)` — collects each variable `DISTINCT`,
and scores `size(hazards)*10 + size(safety_goals)*5 + size(failure_modes)*3`.
Note the failure-mode pattern requires the `ANALYZED_IN` hop: a failure mode
with no FMEA entry leaves the whole pattern unmatched (`fm` null). -/
def GET_COMPONENT_IMPACT (g : Graph) (component_id : String) : List ComponentImpactRow :=
  (g.nodes.filter fun n => n.label == "Component" && n.id == component_id).map fun c =>
    let hazMs := (g.outTo c "IMPLEMENTS" "Function").flatMap fun f =>
      (g.outTo f "CONTRIBUTES_TO" "SafetyGoal").flatMap fun sg =>
        (g.inFrom sg "MITIGATED_BY" "Hazard").map fun h => (f, sg, h)
    let fmMs := (g.outTo c "HAS_FAILURE_MODE" "FailureMode").flatMap fun fm =>
      (g.outTo fm "ANALYZED_IN" "FMEAEntry").map fun fmea => (fm, fmea)
    let hazards := (hazMs.map fun m => m.2.2).dedup
    let sgs := (hazMs.map fun m => m.2.1).dedup
    let fms := (fmMs.map fun m => m.1).dedup
    { component := c
      hazards := hazards
      safety_goals := sgs
      functions := (hazMs.map fun m => m.1).dedup
      test_cases := (g.outTo c "VERIFIED_BY" "TestCase").dedup
      failure_modes := fms
      fmea_entries := (fmMs.map fun m => m.2).dedup
      defects := (g.inFrom c "FOUND_IN" "DefectInstance").dedup
      impact_score := hazards.length * 10 + sgs.length * 5 + fms.length * 3 }

/-- One row of `GET_ALL_COMPONENTS_IMPACT`. -/
structure AllComponentsImpactRow where
  component_id : String
  name : Option String
  component_type : Option String
  hazard_count : Nat
  safety_goal_count : Nat
  failure_mode_count : Nat
  max_asil : Option String
  impact_score : Nat
deriving DecidableEq, Repr

/-- The per-component row of `GET_ALL_COMPONENTS_IMPACT`: OPTIONAL MATCH of
the hazard chain as in the single-component query, but the failure-mode
pattern is the single hop `(c)-[:HAS_FAILURE_MODE]->(fm:FailureMode)` (no
`ANALYZED_IN` requirement); counts are `count(DISTINCT _)` and `max(h.asil)`
ignores nulls. -/
def allComponentsImpactRow (g : Graph) (c : Node) : AllComponentsImpactRow :=
  let hazMs := (g.outTo c "IMPLEMENTS" "Function").flatMap fun f =>
    (g.outTo f "CONTRIBUTES_TO" "SafetyGoal").flatMap fun sg =>
      (g.inFrom sg "MITIGATED_BY" "Hazard").map fun h => (f, sg, h)
  let hazard_count := ((hazMs.map fun m => m.2.2).dedup).length
  let safety_goal_count := ((hazMs.map fun m => m.2.1).dedup).length
  let failure_mode_count := ((g.outTo c "HAS_FAILURE_MODE" "FailureMode").dedup).length
  { component_id := c.id
    name := c.name
    component_type := c.component_type
    hazard_count := hazard_count
    safety_goal_count := safety_goal_count
    failure_mode_count := failure_mode_count
    max_asil :=
      match (hazMs.map fun m => m.2.2.asil).reduceOption.dedup with
      | [] => none
      | a :: rest => some (rest.foldl max a)
    impact_score := hazard_count * 10 + safety_goal_count * 5 + failure_mode_count * 3 }

/-- `ORDER BY impact.impact_score DESC`. -/
def impactScoreOrderRel (a b : AllComponentsImpactRow) : Prop :=
  b.impact_score ≤ a.impact_score

instance : DecidableRel impactScoreOrderRel := fun a b =>
  inferInstanceAs (Decidable (_ ≤ _))

/-- `GET_ALL_COMPONENTS_IMPACT` (queries.py): every component, one row each,
ordered by descending impact score. -/
def GET_ALL_COMPONENTS_IMPACT (g : Graph) : List AllComponentsImpactRow :=
  List.insertionSort impactScoreOrderRel
    ((g.nodes.filter fun n => n.label == "Component").map (allComponentsImpactRow g))

/-- `FILTER_HAZARDS_BY_ASIL` (queries.py):
`MATCH (h:Hazard) WHERE h.asil IN $asil_levels RETURN h ORDER BY h.asil DESC, h.id`.
A null `asil` never passes the `IN` predicate. -/
def FILTER_HAZARDS_BY_ASIL (g : Graph) (asil_levels : List String) : List Node :=
  List.insertionSort hazardOrderRel (g.nodes.filter fun n =>
    n.label == "Hazard" &&
      match n.asil with
      | some a => asil_levels.contains a
      | none => false)

/-! ## Import engine

The write path: `BaseService._node_exists`, `BaseService._create_relationship`
over `CREATE_RELATIONSHIP`, and the per-family import loops of
`HARAImportService` and `FMEAImportService`.  The store is taken healthy on
this path (its failure modes are modelled separately for the analytics
services); a node-creation statement still fails, and is skipped by the
per-item `try/except`, when it violates the store's per-label uniqueness
constraint on `id`. -/

/-- The row count of `MATCH (n {id: $id}) RETURN count(n)` — no label in the
pattern, so every node with the id counts, whatever its kind. -/
def countNodesWithId (g : Graph) (node_id : String) : Nat :=
  (g.nodes.filter fun n => n.id == node_id).length

/-- `BaseService._node_exists` against a healthy store:
`result[0]["count"] > 0`. -/
def node_exists (g : Graph) (node_id : String) : Bool :=
  decide (0 < countNodesWithId g node_id)

/-- A store-internal key unused by `g`, standing for the identity the store
assigns to a newly created node. -/
def freshKey (g : Graph) : Nat :=
  (g.nodes.map fun n => n.key).foldr max 0 + 1

/-- `CREATE (n:label {...})` under the per-label uniqueness constraint on
`id` (init_schema): fails when a node with the same label and id exists. -/
def create_node (g : Graph) (n : Node) : Except String Graph :=
  if g.nodes.any fun m => m.label == n.label && m.id == n.id then
    .error "uniqueness constraint violation"
  else
    .ok { nodes := g.nodes ++ [n], edges := g.edges }

/-- `CREATE_RELATIONSHIP` (queries.py):
`MATCH (a {id: $source_id}) MATCH (b {id: $target_id}) CREATE (a)-[r:$rel_type]->(b) RETURN r`.
One relationship is created per (a, b) binding; when either MATCH binds no
node the query succeeds with zero rows and creates nothing. -/
def CREATE_RELATIONSHIP (g : Graph) (source_id target_id rel_type : String) :
    Graph × List Edge :=
  let srcs := g.nodes.filter fun n => n.id == source_id
  let tgts := g.nodes.filter fun n => n.id == target_id
  let created := srcs.flatMap fun a =>
    tgts.map fun b => { src := a.key, typ := rel_type, dst := b.key }
  ({ nodes := g.nodes, edges := g.edges ++ created }, created)

/-- `BaseService._create_relationship`: runs `CREATE_RELATIONSHIP` in a write
transaction and returns `result[0] if result else {}`.  An empty result (a
missing endpoint) raises nothing; with a healthy store the call never
throws. -/
def create_relationship (g : Graph) (source_id target_id rel_type : String) :
    Graph × Option Edge :=
  let r := CREATE_RELATIONSHIP g source_id target_id rel_type
  (r.1, r.2.head?)

/-- The inner loop of `_import_relationships` over one relationship kind
(hara_import.py / fmea_import.py): each pair goes through
`_create_relationship` inside `try/except`, and `created_count += 1` runs
whenever no exception was raised — with a healthy store, for every pair. -/
def import_relationship_pairs (g : Graph) (rel_type : String)
    (pairs : List (String × String)) : Graph × Nat :=
  match pairs with
  | [] => (g, 0)
  | p :: rest =>
    let step := create_relationship g p.1 p.2 rel_type
    let r := import_relationship_pairs step.1 rel_type rest
    (r.1, r.2 + 1)

/-- `_import_relationships`: folds the per-kind loop over the relationship
map and sums the counts. -/
def import_relationships (g : Graph)
    (relationships : List (String × List (String × String))) : Graph × Nat :=
  match relationships with
  | [] => (g, 0)
  | kv :: rest =>
    let r := import_relationship_pairs g kv.1 kv.2
    let r' := import_relationships r.1 rest
    (r'.1, r.2 + r'.2)

/-- `models/enums.py` `ASILLevel`. -/
inductive ASILLevel where
  | QM
  | A
  | B
  | C
  | D
deriving DecidableEq, Repr

/-- The string the store holds for an ASIL level. -/
def ASILLevel.toStr : ASILLevel → String
  | .QM => "QM"
  | .A => "A"
  | .B => "B"
  | .C => "C"
  | .D => "D"

/-- `validate_safety_goal_asil` (models/nodes.py): safety goals cannot be
QM. -/
def validate_safety_goal_asil (v : ASILLevel) : Except String ASILLevel :=
  if v = ASILLevel.QM then
    .error "Safety goals must have ASIL rating A, B, C, or D (not QM)"
  else
    .ok v

/-- `validate_fsr_asil` (models/nodes.py): FSRs cannot be QM. -/
def validate_fsr_asil (v : ASILLevel) : Except String ASILLevel :=
  if v = ASILLevel.QM then
    .error "Functional Safety Requirements must have ASIL rating A, B, C, or D (not QM)"
  else
    .ok v

/-- `validate_rpn` (models/nodes.py): when `rpn` is present it is only
range-checked against [1, 1000]; `severity` and `occurrence` are fetched
from the record but never compared against it (the source notes the
detection rating is not even in the model). -/
def validate_rpn (rpn : Option Int) (severity occurrence : Option Int) :
    Except String (Option Int) :=
  match rpn with
  | none => .ok none
  | some v =>
    let _ := severity
    let _ := occurrence
    if v < 1 ∨ v > 1000 then .error "RPN must be between 1 and 1000"
    else .ok (some v)

/-- A `HazardNode` record as validated by pydantic (the fields the import
writes; hazards may carry any ASIL, QM included). -/
structure HazardRec where
  id : String
  description : String
  asil : ASILLevel
deriving DecidableEq, Repr

/-- A `ScenarioNode` record. -/
structure ScenarioRec where
  id : String
  name : String
deriving DecidableEq, Repr

/-- A `SafetyGoalNode` record. -/
structure SafetyGoalRec where
  id : String
  description : String
  asil : ASILLevel
deriving DecidableEq, Repr

/-- A `FunctionalSafetyRequirementNode` record. -/
structure FSRRec where
  id : String
  text : String
  asil : ASILLevel
deriving DecidableEq, Repr

/-- A `ComponentNode` record (the fields `_import_components` writes). -/
structure ComponentRec where
  id : String
  name : String
  component_type : String
deriving DecidableEq, Repr

/-- Pydantic record validation over a list: every record is validated
before the route body (and hence any graph write) runs; any failing record
rejects the whole request. -/
def validate_records {α : Type} (f : α → Except String α) :
    List α → Except String (List α)
  | [] => .ok []
  | x :: xs =>
    match f x with
    | .error e => .error e
    | .ok y =>
      match validate_records f xs with
      | .error e => .error e
      | .ok ys => .ok (y :: ys)

/-- The pydantic check `SafetyGoalNode` adds beyond its field types. -/
def parseSafetyGoalNode (r : SafetyGoalRec) : Except String SafetyGoalRec :=
  match validate_safety_goal_asil r.asil with
  | .error e => .error e
  | .ok _ => .ok r

/-- The pydantic check `FunctionalSafetyRequirementNode` adds beyond its
field types. -/
def parseFSRNode (r : FSRRec) : Except String FSRRec :=
  match validate_fsr_asil r.asil with
  | .error e => .error e
  | .ok _ => .ok r

/-- The store node a hazard record creates (`CREATE_HAZARD`). -/
def hazardNode (k : Nat) (r : HazardRec) : Node :=
  { key := k, label := "Hazard", id := r.id
    asil := some r.asil.toStr, description := some r.description }

/-- The store node a scenario record creates (`CREATE_SCENARIO`). -/
def scenarioNode (k : Nat) (r : ScenarioRec) : Node :=
  { key := k, label := "Scenario", id := r.id, name := some r.name }

/-- The store node a safety-goal record creates (`CREATE_SAFETY_GOAL`). -/
def safetyGoalNode (k : Nat) (r : SafetyGoalRec) : Node :=
  { key := k, label := "SafetyGoal", id := r.id
    asil := some r.asil.toStr, description := some r.description }

/-- The store node a component record creates (`CREATE_COMPONENT`). -/
def componentNode (k : Nat) (r : ComponentRec) : Node :=
  { key := k, label := "Component", id := r.id
    name := some r.name, component_type := some r.component_type }

/-- `HARAImportService._import_hazards`: per record, `_create_node` inside
`try/except` — a creation failure (uniqueness violation) is logged and
skipped, a success is counted. -/
def import_hazards (g : Graph) : List HazardRec → Graph × Nat
  | [] => (g, 0)
  | r :: rest =>
    match create_node g (hazardNode (freshKey g) r) with
    | .ok g' =>
      let t := import_hazards g' rest
      (t.1, t.2 + 1)
    | .error _ => import_hazards g rest

/-- `HARAImportService._import_scenarios`: same loop shape. -/
def import_scenarios (g : Graph) : List ScenarioRec → Graph × Nat
  | [] => (g, 0)
  | r :: rest =>
    match create_node g (scenarioNode (freshKey g) r) with
    | .ok g' =>
      let t := import_scenarios g' rest
      (t.1, t.2 + 1)
    | .error _ => import_scenarios g rest

/-- `HARAImportService._import_safety_goals`: same loop shape. -/
def import_safety_goals (g : Graph) : List SafetyGoalRec → Graph × Nat
  | [] => (g, 0)
  | r :: rest =>
    match create_node g (safetyGoalNode (freshKey g) r) with
    | .ok g' =>
      let t := import_safety_goals g' rest
      (t.1, t.2 + 1)
    | .error _ => import_safety_goals g rest

/-- `FMEAImportService._import_components`: per record, skip silently (and
uncounted) when `_node_exists(component.id)` — a label-free check — already
holds, otherwise create and count. -/
def import_components (g : Graph) : List ComponentRec → Graph × Nat
  | [] => (g, 0)
  | r :: rest =>
    if node_exists g r.id then import_components g rest
    else
      match create_node g (componentNode (freshKey g) r) with
      | .ok g' =>
        let t := import_components g' rest
        (t.1, t.2 + 1)
      | .error _ => import_components g rest

/-- `HARAImportRequest` (models/schemas.py): the typed lists plus the
relationship map. -/
structure HARARequest where
  hazards : List HazardRec
  scenarios : List ScenarioRec
  safety_goals : List SafetyGoalRec
  relationships : List (String × List (String × String))
deriving DecidableEq, Repr

/-- The statistics `import_hara` returns in its success response. -/
structure HARAImportStats where
  hazards_created : Nat
  scenarios_created : Nat
  safety_goals_created : Nat
  relationships_created : Nat
deriving DecidableEq, Repr

/-- `HARAImportService.import_hara` on an already-validated request:
nodes family by family, then the relationship map; with a healthy store
nothing escapes the per-item handlers, so the response status is
`"success"`. -/
def import_hara (g : Graph) (req : HARARequest) : Graph × String × HARAImportStats :=
  let th := import_hazards g req.hazards
  let ts := import_scenarios th.1 req.scenarios
  let tg := import_safety_goals ts.1 req.safety_goals
  let tr := import_relationships tg.1 req.relationships
  (tr.1, ("success",
    { hazards_created := th.2
      scenarios_created := ts.2
      safety_goals_created := tg.2
      relationships_created := tr.2 }))

/-- Pydantic validation of a whole `HARAImportRequest`: every list's records
are validated when FastAPI parses the body; only `SafetyGoalNode` carries a
check beyond field typing among the claims' concerns. -/
def parseHARAImportRequest (raw : HARARequest) : Except String HARARequest :=
  match validate_records parseSafetyGoalNode raw.safety_goals with
  | .error e => .error e
  | .ok _ => .ok raw

/-- What an import route returns to the caller. -/
inductive ImportOutcome where
  | created (status : String) (stats : HARAImportStats)
  | clientError (msg : String)
deriving DecidableEq, Repr

/-- The `/import/hara` route: FastAPI parses (and so validates) the body
before the handler body runs; a validation error is rejected as a client
error with no graph write, otherwise the service runs. -/
def import_hara_endpoint (g : Graph) (raw : HARARequest) : Graph × ImportOutcome :=
  match parseHARAImportRequest raw with
  | .error e => (g, .clientError e)
  | .ok req =>
    let r := import_hara g req
    (r.1, .created r.2.1 r.2.2)

/-- `RequirementsImportRequest` (models/schemas.py), restricted to the FSR
list the claims concern. -/
structure RequirementsRequest where
  functional_safety_requirements : List FSRRec
deriving DecidableEq, Repr

/-- Pydantic validation of a `RequirementsImportRequest`: every FSR record
runs `validate_fsr_asil` when FastAPI parses the body. -/
def parseRequirementsImportRequest (raw : RequirementsRequest) :
    Except String RequirementsRequest :=
  match validate_records parseFSRNode raw.functional_safety_requirements with
  | .error e => .error e
  | .ok _ => .ok raw

/-- Whether the `/import/requirements` route rejects the body before the
service — the only writer on that route — is invoked. -/
def requirements_request_rejected (raw : RequirementsRequest) : Bool :=
  match parseRequirementsImportRequest raw with
  | .error _ => true
  | .ok _ => false

/-- `FMEAImportService.import_fmea`, projected to the component family: the
other families and the relationship map run after the component loop and do
not touch its count; with a healthy store the response status is
`"success"`. -/
def import_fmea_components (g : Graph) (components : List ComponentRec) :
    Graph × String × Nat :=
  let t := import_components g components
  (t.1, ("success", t.2))

/-! ## Analytics service error handling

`BaseService._node_exists` wraps its store call in `try/except` and returns
`False` on any failure; `AnalyticsService.get_hazard_coverage` turns a
`False` pre-check into `ValueError`, which the route maps to 404 not-found,
while any other exception maps to 500.  The two store calls the operation
makes are modelled by their results: `Except.error` is a store failure
raised by the driver, `Except.ok rows` a successful result. -/

/-- `BaseService._node_exists` over the raw store result of
`MATCH (n {id: $id}) RETURN count(n) AS count`:
`result[0]["count"] > 0 if result else False`, and `False` on any store
failure (the `except` branch). -/
def node_exists_call (countResult : Except String (List Nat)) : Bool :=
  match countResult with
  | .ok (c :: _) => decide (0 < c)
  | .ok [] => false
  | .error _ => false

/-- What an analytics route returns to the caller. -/
inductive AnalyticsOutcome where
  | success (row : HazardCoverageRow)
  | notFound (msg : String)
  | internalError (msg : String)
deriving DecidableEq, Repr

/-- `AnalyticsService.get_hazard_coverage` together with its route's error
mapping, as a function of the two store-call results it makes in order: the
existence pre-check fails closed to "not found" (`ValueError` → 404), an
empty coverage result is also `ValueError` → 404, and any exception escaping
the coverage query maps to 500. -/
def get_hazard_coverage_service (existsCall : Except String (List Nat))
    (coverageCall : Except String (List HazardCoverageRow)) : AnalyticsOutcome :=
  if node_exists_call existsCall = false then
    .notFound "Hazard not found"
  else
    match coverageCall with
    | .error e => .internalError e
    | .ok [] => .notFound "No coverage data found"
    | .ok (r :: _) => .success r

/-- `get_hazard_coverage` against a healthy store holding `g`. -/
def get_hazard_coverage (g : Graph) (hazard_id : String) : AnalyticsOutcome :=
  get_hazard_coverage_service (.ok [countNodesWithId g hazard_id])
    (.ok (GET_HAZARD_COVERAGE g hazard_id))

/-! ## Concrete scenarios from the specification -/

/-- The hazard of the spec's partial-coverage scenario. -/
def hazardH001 : Node :=
  { key := 1, label := "Hazard", id := "H-001"
    asil := some "D", description := some "Unintended acceleration" }

/-- The safety goal of the spec's partial-coverage scenario. -/
def goalSG001 : Node :=
  { key := 2, label := "SafetyGoal", id := "SG-001"
    asil := some "D", description := some "Prevent unintended acceleration" }

/-- The graph after importing hazard `H-001`, safety goal `SG-001` and the
relationship `MITIGATED_BY: [[H-001, SG-001]]`, with no requirement or
test import — the spec's `coverage_status = partial` scenario. -/
def sgOnlyGraph : Graph :=
  { nodes := [hazardH001, goalSG001]
    edges := [{ src := 1, typ := "MITIGATED_BY", dst := 2 }] }

/-- Component `C-001` of the spec's impact scenario. -/
def compC001 : Node :=
  { key := 1, label := "Component", id := "C-001"
    name := some "Test", component_type := some "hardware" }

/-- Failure mode `FM-001` of the spec's impact scenario; no FMEA entry is
imported, so it has no `ANALYZED_IN` relationship. -/
def fmFM001 : Node :=
  { key := 2, label := "FailureMode", id := "FM-001", description := some "Test" }

/-- The graph after importing component `C-001`, failure mode `FM-001` and
the relationship `HAS_FAILURE_MODE: [[C-001, FM-001]]` — the spec's
`impact_score = 3` scenario. -/
def impactGraph : Graph :=
  { nodes := [compC001, fmFM001]
    edges := [{ src := 1, typ := "HAS_FAILURE_MODE", dst := 2 }] }

/-- A graph holding nodes `H-1` and `SG-1` only: the target `SG-404` of the
second relationship pair below is absent. -/
def relGraph : Graph :=
  { nodes := [{ key := 1, label := "Hazard", id := "H-1", asil := some "D" },
              { key := 2, label := "SafetyGoal", id := "SG-1", asil := some "D" }]
    edges := [] }

/-- A HARA import carrying two `MITIGATED_BY` pairs of which exactly one
references the missing node `SG-404`. -/
def twoPairRequest : HARARequest :=
  { hazards := [], scenarios := [], safety_goals := []
    relationships := [("MITIGATED_BY", [("H-1", "SG-1"), ("H-1", "SG-404")])] }

/-- A graph whose only node is a Hazard that carries the id `C-001`
(arbitrary store content: the label-free existence check is what the claim
exercises). -/
def hazardWithComponentIdGraph : Graph :=
  { nodes := [{ key := 7, label := "Hazard", id := "C-001", asil := some "B" }]
    edges := [] }

/-- A HARA request whose safety-goal list contains a QM record. -/
def qmHARARequest : HARARequest :=
  { hazards := [{ id := "H-001", description := "Test hazard", asil := .D }]
    scenarios := []
    safety_goals := [{ id := "SG-001", description := "Invalid goal", asil := .QM }]
    relationships := [] }

/-- A requirements request whose FSR list contains a QM record. -/
def qmRequirementsRequest : RequirementsRequest :=
  { functional_safety_requirements := [{ id := "FSR-001", text := "Invalid", asil := .QM }] }

/-- The empty store. -/
def emptyGraph : Graph := { nodes := [], edges := [] }

/-! ## Order instances for the embedded ORDER BY relations -/

instance : IsTotal Node hazardOrderRel where
  total a b := by
    unfold hazardOrderRel
    cases ha : a.asil with
    | none =>
      cases hb : b.asil with
      | none =>
        rcases le_total a.id b.id with hid | hid
        · exact Or.inl (Or.inr ⟨rfl, hid⟩)
        · exact Or.inr (Or.inr ⟨rfl, hid⟩)
      | some bb => exact Or.inl (Or.inl (by simp [optStrLt]))
    | some aa =>
      cases hb : b.asil with
      | none => exact Or.inr (Or.inl (by simp [optStrLt]))
      | some bb =>
        rcases lt_trichotomy aa bb with h | h | h
        · exact Or.inr (Or.inl (by simpa [optStrLt] using h))
        · subst h
          rcases le_total a.id b.id with hid | hid
          · exact Or.inl (Or.inr ⟨rfl, hid⟩)
          · exact Or.inr (Or.inr ⟨rfl, hid⟩)
        · exact Or.inl (Or.inl (by simpa [optStrLt] using h))

instance : IsTrans Node hazardOrderRel where
  trans a b c hab hbc := by
    unfold hazardOrderRel at hab hbc ⊢
    rcases hab with hab | ⟨hab, haid⟩
    · rcases hbc with hbc | ⟨hbc, _⟩
      · left
        cases ha : a.asil <;> cases hb : b.asil <;> cases hc : c.asil <;>
          rw [ha, hb] at hab <;> rw [hb, hc] at hbc <;>
            simp_all [optStrLt] <;> exact lt_trans hbc hab
      · left; rw [← hbc]; exact hab
    · rcases hbc with hbc | ⟨hbc, hbid⟩
      · left; rw [hab]; exact hbc
      · exact Or.inr ⟨hab.trans hbc, haid.trans hbid⟩

/-! ## Theorems -/

/-- C1: the coverage classification on the spec's partial scenario — hazard
`H-001` mitigated by safety goal `SG-001`, nothing downstream.  The claim
(and the spec's scenario) says `coverage_status = partial`; the embedded
single-hazard and all-hazards queries both evaluate to `"none"`, because the
OPTIONAL MATCH of the entire 4-hop chain leaves `sg` null whenever no
complete chain exists, so `collect(DISTINCT sg)` is empty and the
`'partial'` branch of the CASE can never fire. -/
theorem c1_sg_only_hazard_evaluates_none :
    ((GET_HAZARD_COVERAGE sgOnlyGraph "H-001").map fun r => r.coverage_status) = ["none"]
    ∧ ((GET_ALL_HAZARDS_COVERAGE sgOnlyGraph).map fun r => r.coverage_status) = ["none"] := by
  constructor
  · decide
  · decide

/-- C2: importing two relationship pairs of which exactly one references the
missing node `SG-404` — the claim says the reported count is N−1 = 1,
counting only pairs actually created.  The embedded import returns success
but reports `relationships_created = 2` while only one relationship exists
afterwards: `_create_relationship` returns an empty result, rather than
raising, when a MATCH binds no endpoint, so the loop counts the failed pair
as created. -/
theorem c2_missing_endpoint_pair_still_counted :
    (import_hara relGraph twoPairRequest).2.1 = "success"
    ∧ (import_hara relGraph twoPairRequest).2.2.relationships_created = 2
    ∧ (import_hara relGraph twoPairRequest).1.edges =
        [{ src := 1, typ := "MITIGATED_BY", dst := 2 }] := by
  refine ⟨rfl, rfl, ?_⟩
  decide

/-- C3: the spec's impact scenario — component `C-001` with failure mode
`FM-001` linked by `HAS_FAILURE_MODE` and no FMEA entry.  The claim says
both impact operations score 10·|H| + 5·|SG| + 3·|FM| = 3 here; the embedded
single-component query scores 0, because its failure-mode pattern demands
the `ANALYZED_IN` hop to an FMEAEntry, while the all-components query (no
such hop) scores the claimed 3. -/
theorem c3_unanalyzed_failure_mode_scores_zero_in_single_impact :
    ((GET_COMPONENT_IMPACT impactGraph "C-001").map fun r => r.impact_score) = [0]
    ∧ ((GET_ALL_COMPONENTS_IMPACT impactGraph).map fun r => r.impact_score) = [3] := by
  constructor
  · decide
  · decide

/-- C6 counterexample: a store failure during the existence pre-check is
reported as `404 Hazard not found` — the claim says a store failure is never
reported as if the queried hazard did not exist. -/
theorem c6_store_failure_reported_not_found :
    get_hazard_coverage_service (.error "Neo.TransientError: connection lost")
      (.error "Neo.TransientError: connection lost") = .notFound "Hazard not found" := rfl

/-- C6 (amended): a store failure raised by the coverage query itself — after
an existence pre-check that succeeded — propagates to the caller as an
internal error; but a store failure during the `_node_exists` pre-check is
caught inside `_node_exists` (which returns False) and the operation is
reported as not-found. -/
theorem c6_store_failure_surfacing (msg : String)
    (existsCall : Except String (List Nat))
    (coverageCall : Except String (List HazardCoverageRow)) :
    (node_exists_call existsCall = true →
      get_hazard_coverage_service existsCall (.error msg) = .internalError msg)
    ∧ get_hazard_coverage_service (.error msg) coverageCall = .notFound "Hazard not found" := by
  constructor
  · intro h
    simp [get_hazard_coverage_service, h]
  · simp [get_hazard_coverage_service, node_exists_call]

/-- C6 witness: with an existence result of one matching node, a failing
coverage query surfaces as an internal error. -/
theorem c6_store_failure_surfacing_witness :
    get_hazard_coverage_service (.ok [1]) (.error "Neo.ClientError: timeout") =
      .internalError "Neo.ClientError: timeout" :=
  (c6_store_failure_surfacing "Neo.ClientError: timeout" (.ok [1]) (.ok [])).1 (by decide)

/-- C8: FMEA entry validation checks `rpn` only as a range: any value in
[1, 1000] is accepted whatever the `severity` and `occurrence` ratings (no
product-consistency check exists — the detection rating is not even a model
field), and any value outside [1, 1000] is rejected. -/
theorem c8_rpn_validated_as_range_only (v s o : Int) :
    (1 ≤ v → v ≤ 1000 → validate_rpn (some v) (some s) (some o) = .ok (some v))
    ∧ ((v < 1 ∨ 1000 < v) →
      validate_rpn (some v) (some s) (some o) = .error "RPN must be between 1 and 1000") := by
  constructor
  · intro h1 h2
    simp only [validate_rpn]
    rw [if_neg (by omega)]
  · intro h
    simp only [validate_rpn]
    rw [if_pos (by omega)]

/-- C8 witness: `rpn = 999` with `severity = 2` and `occurrence = 2` (a
product of at most 40 with any detection rating in [1, 10]) passes, and
`rpn = 1001` is rejected. -/
theorem c8_rpn_validated_as_range_only_witness :
    validate_rpn (some 999) (some 2) (some 2) = .ok (some 999)
    ∧ validate_rpn (some 1001) (some 2) (some 2) =
        .error "RPN must be between 1 and 1000" :=
  ⟨(c8_rpn_validated_as_range_only 999 2 2).1 (by decide) (by decide),
   (c8_rpn_validated_as_range_only 1001 2 2).2 (by decide)⟩

/-- Record-list validation fails whenever some record fails. -/
theorem validate_records_error_of_mem {α : Type} (f : α → Except String α)
    (l : List α) (x : α) (hx : x ∈ l) (hf : ∃ e, f x = .error e) :
    ∃ e, validate_records f l = .error e := by
  induction l with
  | nil => cases hx
  | cons a t ih =>
    rcases List.mem_cons.mp hx with h | h
    · subst h
      obtain ⟨e, he⟩ := hf
      exact ⟨e, by simp [validate_records, he]⟩
    · cases hfa : f a with
      | error e => exact ⟨e, by simp [validate_records, hfa]⟩
      | ok y =>
        obtain ⟨e, he⟩ := ih h
        exact ⟨e, by simp [validate_records, hfa, he]⟩

/-- C7: a batch whose safety-goal list contains a QM record is rejected by
validation before the HARA service — the only writer on that route — runs,
leaving the graph unchanged and returning a client error; a QM FSR likewise
rejects the requirements request before its service is invoked; and every
non-QM ASIL level (A, B, C, D) passes both ASIL validators. -/
theorem c7_qm_rejected_before_any_write (g : Graph) (rawH : HARARequest)
    (rawR : RequirementsRequest) :
    ((∃ sg ∈ rawH.safety_goals, sg.asil = ASILLevel.QM) →
      (import_hara_endpoint g rawH).1 = g
      ∧ ∃ e, (import_hara_endpoint g rawH).2 = ImportOutcome.clientError e)
    ∧ ((∃ fsr ∈ rawR.functional_safety_requirements, fsr.asil = ASILLevel.QM) →
      requirements_request_rejected rawR = true)
    ∧ (∀ a : ASILLevel, a ≠ ASILLevel.QM →
      validate_safety_goal_asil a = .ok a ∧ validate_fsr_asil a = .ok a) := by
  refine ⟨?_, ?_, ?_⟩
  · rintro ⟨sg, hmem, hqm⟩
    obtain ⟨e, he⟩ := validate_records_error_of_mem parseSafetyGoalNode
      rawH.safety_goals sg
      hmem ⟨"Safety goals must have ASIL rating A, B, C, or D (not QM)",
        by simp [parseSafetyGoalNode, validate_safety_goal_asil, hqm]⟩
    constructor
    · simp [import_hara_endpoint, parseHARAImportRequest, he]
    · exact ⟨e, by simp [import_hara_endpoint, parseHARAImportRequest, he]⟩
  · rintro ⟨fsr, hmem, hqm⟩
    obtain ⟨e, he⟩ := validate_records_error_of_mem parseFSRNode
      rawR.functional_safety_requirements fsr
      hmem ⟨"Functional Safety Requirements must have ASIL rating A, B, C, or D (not QM)",
        by simp [parseFSRNode, validate_fsr_asil, hqm]⟩
    simp [requirements_request_rejected, parseRequirementsImportRequest, he]
  · intro a ha
    exact ⟨by simp [validate_safety_goal_asil, ha], by simp [validate_fsr_asil, ha]⟩

/-- C7 witness: the concrete QM-bearing HARA and requirements batches are
rejected with no write, and ASIL D passes the safety-goal validator. -/
theorem c7_qm_rejected_before_any_write_witness :
    (import_hara_endpoint emptyGraph qmHARARequest).1 = emptyGraph
    ∧ (∃ e, (import_hara_endpoint emptyGraph qmHARARequest).2 = ImportOutcome.clientError e)
    ∧ requirements_request_rejected qmRequirementsRequest = true
    ∧ validate_safety_goal_asil .D = .ok .D := by
  have h := c7_qm_rejected_before_any_write emptyGraph qmHARARequest qmRequirementsRequest
  have h1 := h.1 ⟨{ id := "SG-001", description := "Invalid goal", asil := .QM },
    by simp [qmHARARequest], rfl⟩
  exact ⟨h1.1, h1.2,
    h.2.1 ⟨{ id := "FSR-001", text := "Invalid", asil := .QM },
      by simp [qmRequirementsRequest], rfl⟩,
    (h.2.2 .D (by simp)).1⟩

/-- The label-free existence check holds exactly when some node — of any
kind — carries the id. -/
theorem node_exists_iff (g : Graph) (i : String) :
    node_exists g i = true ↔ ∃ n ∈ g.nodes, n.id = i := by
  unfold node_exists countNodesWithId
  rw [decide_eq_true_eq, List.length_pos_iff_exists_mem]
  constructor
  · rintro ⟨n, hn⟩
    have h := List.mem_filter.mp hn
    exact ⟨n, h.1, by simpa using h.2⟩
  · rintro ⟨n, hn, hi⟩
    exact ⟨n, List.mem_filter.mpr ⟨hn, by simp [hi]⟩⟩

/-- The component import loop only appends nodes and never touches edges. -/
theorem import_components_grows (cs : List ComponentRec) (g : Graph) :
    ∃ l, (import_components g cs).1 = { nodes := g.nodes ++ l, edges := g.edges } := by
  induction cs generalizing g with
  | nil => exact ⟨[], by simp [import_components]⟩
  | cons c rest ih =>
    by_cases hex : node_exists g c.id
    · obtain ⟨l, hl⟩ := ih g
      exact ⟨l, by simp [import_components, hex, hl]⟩
    · cases hcr : create_node g (componentNode (freshKey g) c) with
      | ok g' =>
        have hg' : g' = { nodes := g.nodes ++ [componentNode (freshKey g) c], edges := g.edges } := by
          unfold create_node at hcr
          split at hcr
          · cases hcr
          · cases hcr; rfl
        subst hg'
        obtain ⟨l, hl⟩ := ih { nodes := g.nodes ++ [componentNode (freshKey g) c], edges := g.edges }
        refine ⟨componentNode (freshKey g) c :: l, ?_⟩
        simp [import_components, hex, hcr, hl, List.append_assoc]
      | error e =>
        obtain ⟨l, hl⟩ := ih g
        exact ⟨l, by simp [import_components, hex, hcr, hl]⟩

/-- An id visible before the component import loop stays visible after it. -/
theorem node_exists_import_components_mono (cs : List ComponentRec) (g : Graph)
    (i : String) (h : node_exists g i = true) :
    node_exists (import_components g cs).1 i = true := by
  obtain ⟨l, hl⟩ := import_components_grows cs g
  rw [hl]
  rw [node_exists_iff] at h ⊢
  obtain ⟨n, hn, hi⟩ := h
  exact ⟨n, by simp [hn], hi⟩

/-- After a component import, every imported record's id exists in the graph
(it was either already present or has just been created). -/
theorem import_components_ids_exist (cs : List ComponentRec) (g : Graph) :
    ∀ c ∈ cs, node_exists (import_components g cs).1 c.id = true := by
  induction cs generalizing g with
  | nil => intro c hc; cases hc
  | cons a rest ih =>
    intro c hc
    by_cases hex : node_exists g a.id
    · rcases List.mem_cons.mp hc with h | h
      · subst h
        simpa [import_components, hex] using
          node_exists_import_components_mono rest g c.id hex
      · simpa [import_components, hex] using ih g c h
    · cases hcr : create_node g (componentNode (freshKey g) a) with
      | ok g' =>
        have hg' : node_exists g' a.id = true := by
          unfold create_node at hcr
          split at hcr
          · cases hcr
          · cases hcr
            rw [node_exists_iff]
            exact ⟨componentNode (freshKey g) a, by simp, rfl⟩
        rcases List.mem_cons.mp hc with h | h
        · subst h
          simpa [import_components, hex, hcr] using
            node_exists_import_components_mono rest g' c.id hg'
        · simpa [import_components, hex, hcr] using ih g' c h
      | error e =>
        rcases List.mem_cons.mp hc with h | h
        · subst h
          -- creation can only fail on the per-label uniqueness constraint,
          -- which implies a node with the record's id already exists,
          -- contradicting the negative existence check
          exfalso
          unfold create_node at hcr
          split at hcr
          · rename_i hany
            obtain ⟨m, hm, hml⟩ := List.any_eq_true.mp hany
            have hid : m.id = c.id := by
              have := (Bool.and_eq_true _ _).mp hml
              simpa [componentNode] using this.2
            exact absurd ((node_exists_iff g c.id).mpr ⟨m, hm, hid⟩) (by simp [hex])
          · cases hcr
        · simpa [import_components, hex, hcr] using ih g c h

/-- When every record's id already exists, the component import loop skips
every record: no node is created, nothing is counted. -/
theorem import_components_skips_existing (cs : List ComponentRec) (g : Graph)
    (h : ∀ c ∈ cs, node_exists g c.id = true) :
    import_components g cs = (g, 0) := by
  induction cs with
  | nil => rfl
  | cons a rest ih =>
    have ha := h a (by simp)
    have hrest := ih fun c hc => h c (by simp [hc])
    simp [import_components, ha, hrest]

/-- C5: component import is idempotent by id — re-running
`FMEAImportService.import_fmea` on the same component payload right after a
first run creates no node, reports `components_created = 0`, and still
returns a success response. -/
theorem c5_component_import_idempotent (g : Graph) (components : List ComponentRec) :
    import_fmea_components (import_fmea_components g components).1 components =
      ((import_fmea_components g components).1, ("success", 0)) := by
  unfold import_fmea_components
  have h := import_components_ids_exist components g
  simp only []
  rw [import_components_skips_existing components (import_components g components).1 h]

/-- C10: the duplicate-skip check of the component import matches on id
alone, with no node label — a component record whose id is carried by any
node already in the graph, of whatever kind, is skipped (not created, not
counted) and the loop proceeds with the remaining records. -/
theorem c10_component_skip_matches_id_without_label (g : Graph)
    (c : ComponentRec) (cs : List ComponentRec)
    (h : node_exists g c.id = true) :
    import_components g (c :: cs) = import_components g cs := by
  simp [import_components, h]

/-- C10 witness: a graph whose only node is a Hazard with id `C-001` makes
the component record `C-001` a duplicate — no Component node is created and
nothing is counted. -/
theorem c10_component_skip_matches_id_without_label_witness :
    node_exists hazardWithComponentIdGraph "C-001" = true
    ∧ import_components hazardWithComponentIdGraph
        [{ id := "C-001", name := "Brake ECU", component_type := "hardware" }] =
        (hazardWithComponentIdGraph, 0) :=
  ⟨by decide,
   (c10_component_skip_matches_id_without_label hazardWithComponentIdGraph
     { id := "C-001", name := "Brake ECU", component_type := "hardware" } []
     (by decide)).trans rfl⟩

/-- The classification a per-hazard coverage row actually computes: `"full"`
when a complete chain reaches a test case, `"none"` otherwise — the
`"partial"` branch cannot fire, because the safety goals are collected from
the same full-chain bindings as the test cases. -/
theorem allHazardsCoverageRow_status_eq (g : Graph) (h : Node) :
    (allHazardsCoverageRow g h).coverage_status =
      if 0 < ((coverageChainMatches g h).map fun m => m.2.2.2).dedup.length
      then "full" else "none" := by
  unfold allHazardsCoverageRow
  dsimp only
  split_ifs with h1 h2
  · rfl
  · exfalso
    have h0 : ((coverageChainMatches g h).map fun m => m.2.2.2).dedup.length = 0 :=
      Nat.eq_zero_of_not_pos h1
    have hms : coverageChainMatches g h = [] :=
      List.map_eq_nil_iff.mp ((List.dedup_eq_nil _).mp (List.length_eq_zero.mp h0))
    rw [hms] at h2
    simp at h2
  · rfl

/-- The `test_count` aggregate of a per-hazard coverage row. -/
theorem allHazardsCoverageRow_test_count (g : Graph) (h : Node) :
    (allHazardsCoverageRow g h).test_count =
      ((coverageChainMatches g h).map fun m => m.2.2.2).dedup.length := rfl

/-- Status counting over any list of per-hazard rows partitions the list:
each row's status is `"full"`, `"partial"` or `"none"`, so the three counts
sum to the length. -/
theorem countP_statuses_partition (l : List AllHazardsCoverageRow)
    (h : ∀ i ∈ l, i.coverage_status = "full" ∨ i.coverage_status = "partial"
      ∨ i.coverage_status = "none") :
    (l.countP fun i => i.coverage_status == "full")
      + (l.countP fun i => i.coverage_status == "partial")
      + (l.countP fun i => i.coverage_status == "none") = l.length := by
  induction l with
  | nil => rfl
  | cons a t ih =>
    have ha := h a (List.mem_cons_self a t)
    have ht := ih fun i hi => h i (List.mem_cons_of_mem a hi)
    rcases ha with h1 | h1 | h1 <;>
      simp only [List.countP_cons, h1, List.length_cons] <;>
        simp <;> omega

/-- Every row a coverage-item list holds classifies as `"full"` or
`"none"`. -/
theorem mapped_rows_status_cases (g : Graph) (l : List Node) :
    ∀ i ∈ l.map (allHazardsCoverageRow g), i.coverage_status = "full"
      ∨ i.coverage_status = "none" := by
  intro i hi
  obtain ⟨h, _, rfl⟩ := List.mem_map.mp hi
  rw [allHazardsCoverageRow_status_eq]
  split_ifs
  · exact Or.inl rfl
  · exact Or.inr rfl

/-- Counting a predicate over the sorted, mapped coverage rows equals
counting it over the underlying hazard list. -/
theorem countP_sorted_rows (g : Graph) (l : List Node)
    (p : AllHazardsCoverageRow → Bool) :
    ((List.insertionSort hazardOrderRel l).map (allHazardsCoverageRow g)).countP p
      = l.countP fun h => p (allHazardsCoverageRow g h) := by
  rw [List.countP_map]
  exact (List.perm_insertionSort _ _).countP_eq _

/-- The guarded percentage always equals the unguarded quotient: rational
division by zero is zero, so the empty case agrees. -/
theorem guarded_percentage_eq (f t : Nat) :
    (if t > 0 then (f : ℚ) / (t : ℚ) * 100 else 0) = (f : ℚ) / (t : ℚ) * 100 := by
  by_cases h : t > 0
  · rw [if_pos h]
  · have ht : t = 0 := by omega
    subst ht
    simp

/-- The statistics query's `fully_covered` counts exactly the hazards the
all-hazards query classifies `"full"`. -/
theorem stats_fully_eq_classified_full (g : Graph) :
    (GET_COVERAGE_STATISTICS g).fully_covered
      = (GET_ALL_HAZARDS_COVERAGE g).countP fun i => i.coverage_status == "full" := by
  unfold GET_COVERAGE_STATISTICS GET_ALL_HAZARDS_COVERAGE
  dsimp only
  rw [countP_sorted_rows, List.countP_map]
  apply List.countP_congr
  intro h _
  by_cases hc : 0 < ((coverageChainMatches g h).map fun m => m.2.2.2).dedup.length <;>
    simp [allHazardsCoverageRow_status_eq, hc, Function.comp]

/-- The statistics query's `not_covered` counts exactly the hazards the
all-hazards query classifies `"none"`. -/
theorem stats_not_eq_classified_none (g : Graph) :
    (GET_COVERAGE_STATISTICS g).not_covered
      = (GET_ALL_HAZARDS_COVERAGE g).countP fun i => i.coverage_status == "none" := by
  have key : ∀ x : Nat,
      ((x == 0) = true ↔ ((if 0 < x then "full" else "none" : String) == "none") = true) := by
    intro x
    by_cases hx : 0 < x
    · rw [if_pos hx]
      simp
      omega
    · rw [if_neg hx]
      simp
      omega
  unfold GET_COVERAGE_STATISTICS GET_ALL_HAZARDS_COVERAGE
  dsimp only
  rw [countP_sorted_rows, List.countP_map]
  apply List.countP_congr
  intro h _
  simp only [Function.comp, allHazardsCoverageRow_status_eq]
  exact key _

/-- No row of a mapped coverage-item list classifies `"partial"`. -/
theorem rows_countP_partial_zero (g : Graph) (l : List Node) :
    ((List.insertionSort hazardOrderRel l).map (allHazardsCoverageRow g)).countP
      (fun i => i.coverage_status == "partial") = 0 := by
  apply List.countP_eq_zero.mpr
  intro i hi
  rcases mapped_rows_status_cases g _ i hi with h | h <;> simp [h]

/-- Over any list of per-hazard test counts, the positive and zero counts
partition the list. -/
theorem countP_pos_add_countP_zero (l : List Nat) :
    l.countP (fun c => c > 0) + l.countP (fun c => c == 0) = l.length := by
  have hnot : ∀ (p : Nat → Bool),
      l.countP p + l.countP (fun c => !(p c)) = l.length := by
    intro p
    induction l with
    | nil => rfl
    | cons a t ih =>
      cases hpa : p a <;> simp [List.countP_cons, hpa] <;> omega
  have heq : l.countP (fun c => c == 0)
      = l.countP (fun c => !((fun c : Nat => c > 0) c)) := by
    apply List.countP_congr
    intro a _
    cases a <;> simp
  rw [heq]
  exact hnot fun c : Nat => c > 0

/-- The statistics query's fully- and not-covered counts exhaust the hazard
set. -/
theorem stats_fully_add_not (g : Graph) :
    (GET_COVERAGE_STATISTICS g).fully_covered + (GET_COVERAGE_STATISTICS g).not_covered
      = (GET_COVERAGE_STATISTICS g).total_hazards := by
  unfold GET_COVERAGE_STATISTICS
  dsimp only
  exact countP_pos_add_countP_zero _

/-- The three status counts over any sorted, mapped coverage-item list sum
to its length. -/
theorem service_items_partition (g : Graph) (l : List Node) :
    (((List.insertionSort hazardOrderRel l).map (allHazardsCoverageRow g)).countP
        fun i => i.coverage_status == "full")
      + (((List.insertionSort hazardOrderRel l).map (allHazardsCoverageRow g)).countP
        fun i => i.coverage_status == "partial")
      + (((List.insertionSort hazardOrderRel l).map (allHazardsCoverageRow g)).countP
        fun i => i.coverage_status == "none")
      = ((List.insertionSort hazardOrderRel l).map (allHazardsCoverageRow g)).length := by
  apply countP_statuses_partition
  intro i hi
  rcases mapped_rows_status_cases g _ i hi with h | h
  · exact Or.inl h
  · exact Or.inr (Or.inr h)

/-- C4: the aggregate coverage summary is consistent — in the service
summary of `get_all_hazards_coverage` (with or without an ASIL filter) the
fully/partially/not-covered counts sum to the total (the counts are by
classification, so each hazard falls in exactly one), and the coverage
percentage equals fully_covered / total × 100, in particular exactly 0 with
no division error on an empty hazard set; the `GET_COVERAGE_STATISTICS`
query reports the same total as the all-hazards classification, counts that
match the classification category by category and sum to the total, and the
same guarded percentage. -/
theorem c4_coverage_summary_consistent (g : Graph) (asil_filter : Option (List String)) :
    ((get_all_hazards_coverage g asil_filter).1.fully_covered
        + (get_all_hazards_coverage g asil_filter).1.partially_covered
        + (get_all_hazards_coverage g asil_filter).1.not_covered
      = (get_all_hazards_coverage g asil_filter).1.total_hazards)
    ∧ ((get_all_hazards_coverage g asil_filter).1.coverage_percentage
      = ((get_all_hazards_coverage g asil_filter).1.fully_covered : ℚ)
          / ((get_all_hazards_coverage g asil_filter).1.total_hazards : ℚ) * 100)
    ∧ ((get_all_hazards_coverage g asil_filter).1.total_hazards = 0 →
      (get_all_hazards_coverage g asil_filter).1.coverage_percentage = 0)
    ∧ ((GET_COVERAGE_STATISTICS g).fully_covered
        + (GET_COVERAGE_STATISTICS g).partially_covered
        + (GET_COVERAGE_STATISTICS g).not_covered
      = (GET_COVERAGE_STATISTICS g).total_hazards)
    ∧ (GET_COVERAGE_STATISTICS g).fully_covered
        = ((GET_ALL_HAZARDS_COVERAGE g).countP fun i => i.coverage_status == "full")
    ∧ (GET_COVERAGE_STATISTICS g).partially_covered
        = ((GET_ALL_HAZARDS_COVERAGE g).countP fun i => i.coverage_status == "partial")
    ∧ (GET_COVERAGE_STATISTICS g).not_covered
        = ((GET_ALL_HAZARDS_COVERAGE g).countP fun i => i.coverage_status == "none")
    ∧ (GET_COVERAGE_STATISTICS g).total_hazards = (GET_ALL_HAZARDS_COVERAGE g).length
    ∧ ((GET_COVERAGE_STATISTICS g).coverage_percentage
      = ((GET_COVERAGE_STATISTICS g).fully_covered : ℚ)
          / ((GET_COVERAGE_STATISTICS g).total_hazards : ℚ) * 100) := by
  have hpartial0 : ((GET_ALL_HAZARDS_COVERAGE g).countP
      fun i => i.coverage_status == "partial") = 0 := rows_countP_partial_zero g _
  have hsum := stats_fully_add_not g
  have hstotal : (GET_COVERAGE_STATISTICS g).partially_covered
      = (GET_COVERAGE_STATISTICS g).total_hazards
        - (GET_COVERAGE_STATISTICS g).fully_covered
        - (GET_COVERAGE_STATISTICS g).not_covered := rfl
  have hb : ((GET_COVERAGE_STATISTICS g).fully_covered
        + (GET_COVERAGE_STATISTICS g).partially_covered
        + (GET_COVERAGE_STATISTICS g).not_covered
      = (GET_COVERAGE_STATISTICS g).total_hazards)
    ∧ (GET_COVERAGE_STATISTICS g).fully_covered
        = ((GET_ALL_HAZARDS_COVERAGE g).countP fun i => i.coverage_status == "full")
    ∧ (GET_COVERAGE_STATISTICS g).partially_covered
        = ((GET_ALL_HAZARDS_COVERAGE g).countP fun i => i.coverage_status == "partial")
    ∧ (GET_COVERAGE_STATISTICS g).not_covered
        = ((GET_ALL_HAZARDS_COVERAGE g).countP fun i => i.coverage_status == "none")
    ∧ (GET_COVERAGE_STATISTICS g).total_hazards = (GET_ALL_HAZARDS_COVERAGE g).length
    ∧ ((GET_COVERAGE_STATISTICS g).coverage_percentage
      = ((GET_COVERAGE_STATISTICS g).fully_covered : ℚ)
          / ((GET_COVERAGE_STATISTICS g).total_hazards : ℚ) * 100) := by
    refine ⟨by omega, stats_fully_eq_classified_full g, by omega,
      stats_not_eq_classified_none g, ?_, guarded_percentage_eq _ _⟩
    simp [GET_COVERAGE_STATISTICS, GET_ALL_HAZARDS_COVERAGE, List.length_insertionSort]
  cases asil_filter with
  | none =>
    refine ⟨service_items_partition g _, guarded_percentage_eq _ _, ?_, hb⟩
    intro h0
    have hpct : (get_all_hazards_coverage g none).1.coverage_percentage
        = ((get_all_hazards_coverage g none).1.fully_covered : ℚ)
          / ((get_all_hazards_coverage g none).1.total_hazards : ℚ) * 100 :=
      guarded_percentage_eq _ _
    rw [hpct, h0]
    simp
  | some levels =>
    refine ⟨service_items_partition g _, guarded_percentage_eq _ _, ?_, hb⟩
    intro h0
    have hpct : (get_all_hazards_coverage g (some levels)).1.coverage_percentage
        = ((get_all_hazards_coverage g (some levels)).1.fully_covered : ℚ)
          / ((get_all_hazards_coverage g (some levels)).1.total_hazards : ℚ) * 100 :=
      guarded_percentage_eq _ _
    rw [hpct, h0]
    simp

/-- The filter predicate of `FILTER_HAZARDS_BY_ASIL` for the level list
`["D", "C"]`, in propositional form. -/
theorem filter_dc_pred_iff (n : Node) :
    ((n.label == "Hazard" && match n.asil with
        | some a => (["D", "C"] : List String).contains a
        | none => false) = true)
    ↔ (n.label = "Hazard" ∧ (n.asil = some "D" ∨ n.asil = some "C")) := by
  cases ha : n.asil with
  | none => simp [ha]
  | some a => simp [ha]

/-- C9: filtering hazards by the ASIL list `["D", "C"]` returns exactly the
Hazard nodes whose `asil` is `D` or `C` (no other node appears, every such
hazard appears), ordered with every ASIL-D hazard before every ASIL-C hazard
and, within the same ASIL, by ascending id. -/
theorem c9_filter_hazards_by_asil_dc (g : Graph) :
    (∀ n : Node, n ∈ FILTER_HAZARDS_BY_ASIL g ["D", "C"] ↔
      (n ∈ g.nodes ∧ n.label = "Hazard" ∧ (n.asil = some "D" ∨ n.asil = some "C")))
    ∧ (FILTER_HAZARDS_BY_ASIL g ["D", "C"]).Pairwise fun a b =>
        (a.asil = some "D" ∧ b.asil = some "C") ∨ (a.asil = b.asil ∧ a.id ≤ b.id) := by
  have hmem : ∀ n : Node, n ∈ FILTER_HAZARDS_BY_ASIL g ["D", "C"] ↔
      (n ∈ g.nodes ∧ n.label = "Hazard" ∧ (n.asil = some "D" ∨ n.asil = some "C")) := by
    intro n
    unfold FILTER_HAZARDS_BY_ASIL
    rw [List.mem_insertionSort, List.mem_filter, filter_dc_pred_iff]
  refine ⟨hmem, ?_⟩
  have hsorted : List.Pairwise hazardOrderRel (FILTER_HAZARDS_BY_ASIL g ["D", "C"]) := by
    unfold FILTER_HAZARDS_BY_ASIL
    exact List.sorted_insertionSort _ _
  refine List.Pairwise.imp_of_mem ?_ hsorted
  intro a b ha hb hrel
  have ha' := ((hmem a).mp ha).2.2
  have hb' := ((hmem b).mp hb).2.2
  rcases hrel with hlt | ⟨heq, hle⟩
  · rcases ha' with haD | haC <;> rcases hb' with hbD | hbC
    · rw [haD, hbD] at hlt
      simp only [optStrLt] at hlt
      exact absurd hlt (lt_irrefl _)
    · exact Or.inl ⟨haD, hbC⟩
    · rw [haC, hbD] at hlt
      simp only [optStrLt] at hlt
      rw [String.lt_iff_toList_lt] at hlt
      exact absurd hlt (by decide)
    · rw [haC, hbC] at hlt
      simp only [optStrLt] at hlt
      exact absurd hlt (lt_irrefl _)
  · exact Or.inr ⟨heq, hle⟩

end SafetyGraph
